import Mathlib

/-!
# Verification of the airsim-js drone-mission behavior-tree driver

Shallow embedding of the repository's three source files:

* `src/src/actions.ts` — blackboard (`MissionState`) and the async action
  leaves (`MoveToZAction`, `MoveToPositionAction`, `TakeoffAction`,
  `LandAction`, `ReturnHomeAction`, `MoveOnPathAction`, `RotateToYawAction`).
  Each leaf's `activate` synchronously sets status `RUNNING` and issues one
  external command whose promise continuation later mutates the leaf's
  status and the blackboard.  We embed the continuation as a pure function
  from the command's outcome (an explicit datum) to the new blackboard and
  status.  JS numbers are modelled as rationals (`ℚ`): every claim is about
  comparison logic, not float rounding.  Arguments that only parametrize
  the external command (velocities, timeouts) do not appear, because the
  external vehicle API is out of scope and its reply is the outcome datum.
* `src/src/index.ts` — `MissionControl` (launch / abort / tick loop) and
  `FlightPlanSequence`.  The `setInterval` timer is embedded as an explicit
  sequence of firings; the root tree's reply to each `tic` is an input,
  since the controller only stores the returned code.
* `src/unnamed/part_000` — the start/stop `MissionControl` variant.

The `blueshell` behavior-tree library is an external dependency whose code
is not in the repository; the little of it that the claims need (the
`handleEvent` precondition / `_afterEvent` flow and latching) is modelled
from the spec, marked `Modelled from the spec:` below.
-/

namespace DroneMission

/-- blueshell's `ResultCode` vocabulary used by every node and the driver. -/
inductive ResultCode where
  | RUNNING
  | SUCCESS
  | FAILURE
  | ERROR
deriving DecidableEq, Repr

/-- RUNNING is the single non-terminal code (spec §3). -/
def ResultCode.isTerminal (r : ResultCode) : Bool :=
  r != ResultCode.RUNNING

/-- `Vector3` from airsim-js, coordinates as rationals. -/
structure Vector3 where
  x : ℚ
  y : ℚ
  z : ℚ
deriving DecidableEq, Repr

/-- The part of an airsim-js `Pose` the leaves read: the position. -/
structure Pose where
  position : Vector3
deriving DecidableEq, Repr

/-- Constants from src/src/actions.ts lines 6-10. -/
def HOVER_HT : ℚ := -3

def HOVER_HT_MARGIN : ℚ := 1

def DEFAULT_MOVE_VELOCITY : ℚ := 5

def POS_MARGIN : ℚ := 5

/-- Blackboard (`MissionState`, src/src/actions.ts lines 16-26): last error,
debug flag and current hover altitude.  The vehicle handles are external. -/
structure MissionState where
  errorReason : Option String
  debug : Bool
  hoverHt : ℚ
deriving DecidableEq, Repr

/-- `new MissionState(...)`: `hoverHt = HOVER_HT`, `debug = false`. -/
def MissionState.init : MissionState :=
  { errorReason := none, debug := false, hoverHt := HOVER_HT }

/-- Squared Euclidean distance between two vectors. -/
def Vector3.dSq (a b : Vector3) : ℚ :=
  (a.x - b.x) ^ 2 + (a.y - b.y) ^ 2 + (a.z - b.z) ^ 2

/-- `a.distanceTo b <= m`, written without a square root so that it stays
executable over ℚ: for `0 ≤ m` the source's comparison
`Math.abs(a.distanceTo(b)) <= m` of the (non-negative) Euclidean distance
is equivalent to `dSq a b ≤ m ^ 2`; `distLe_iff_sqrt` below proves the
equivalence with the real square-root form. -/
def Vector3.distLe (a b : Vector3) (m : ℚ) : Bool :=
  decide (Vector3.dSq a b ≤ m ^ 2)

/-- Outcome of the promise chain issued by a leaf that follows up its move
command with a `getPose()` read (src/src/actions.ts lines 99-109, 152-162):
either both the command and the pose read resolve (with the read pose), or
the command resolves but the pose read rejects, or the command rejects. -/
inductive CmdOutcome where
  | cmdResolvedPoseResolved (pose : Pose)
  | cmdResolvedPoseRejected (msg : String)
  | cmdRejected (msg : String)
deriving DecidableEq, Repr

/-- Outcome of a leaf command with no follow-up pose read
(src/src/actions.ts lines 231-236, 254-259). -/
inductive SimpleOutcome where
  | resolved
  | rejected (msg : String)
deriving DecidableEq, Repr

/-- Parameters of `MoveToZAction` (src/src/actions.ts lines 89-95):
target height and margin (the `timeOut` only parametrizes the external
command). -/
structure MoveToZParams where
  targetHt : ℚ
  targetMargin : ℚ
deriving DecidableEq, Repr

/-- `MoveToZAction` constructed with the default margin `HOVER_HT_MARGIN`. -/
def MoveToZAction.mkDefault (targetHt : ℚ) : MoveToZParams :=
  { targetHt := targetHt, targetMargin := HOVER_HT_MARGIN }

/-- `TakeoffAction` is `MoveToZAction` with default target `HOVER_HT`
and the default margin (src/src/actions.ts lines 119-122). -/
def TakeoffAction.mkDefault : MoveToZParams :=
  MoveToZAction.mkDefault HOVER_HT

/-- `LandAction` is `MoveToZAction` with target 0.5 and margin 0.01
(src/src/actions.ts line 136). -/
def LandAction.params : MoveToZParams :=
  { targetHt := 1 / 2, targetMargin := 1 / 100 }

/-- The promise continuation installed by `MoveToZAction.activate`
(src/src/actions.ts lines 99-109), as a function of the chain's outcome.
Takes and returns the blackboard and the leaf's status field.
When the command resolves and the pose read resolves, status becomes
SUCCESS or FAILURE by the margin test.  When the command rejects, the
`.catch` records the message and sets ERROR.  When the pose read rejects,
nothing runs: the inner `getPose().then(...)` promise is not returned from
the outer then-callback, so its rejection never reaches the `.catch`, and
neither the status nor the blackboard is written. -/
def MoveToZAction.onOutcome (a : MoveToZParams) (st : MissionState)
    (status : Option ResultCode) (o : CmdOutcome) :
    MissionState × Option ResultCode :=
  match o with
  | CmdOutcome.cmdResolvedPoseResolved pose =>
      (st, some (if |pose.position.z - a.targetHt| ≤ a.targetMargin then
        ResultCode.SUCCESS else ResultCode.FAILURE))
  | CmdOutcome.cmdResolvedPoseRejected _ => (st, status)
  | CmdOutcome.cmdRejected msg =>
      ({ st with errorReason := some msg }, some ResultCode.ERROR)

/-- Parameters of `MoveToPositionAction` (src/src/actions.ts lines 144-148). -/
structure MoveToPositionParams where
  targetPos : Vector3
  velocity : ℚ
deriving DecidableEq, Repr

/-- The promise continuation installed by `MoveToPositionAction.activate`
(src/src/actions.ts lines 152-162); same chain shape as `MoveToZAction`,
with the position-distance test `|pose.position.distanceTo(targetPos)| <=
POS_MARGIN` deciding SUCCESS vs FAILURE. -/
def MoveToPositionAction.onOutcome (a : MoveToPositionParams)
    (st : MissionState) (status : Option ResultCode) (o : CmdOutcome) :
    MissionState × Option ResultCode :=
  match o with
  | CmdOutcome.cmdResolvedPoseResolved pose =>
      (st, some (if Vector3.distLe pose.position a.targetPos POS_MARGIN then
        ResultCode.SUCCESS else ResultCode.FAILURE))
  | CmdOutcome.cmdResolvedPoseRejected _ => (st, status)
  | CmdOutcome.cmdRejected msg =>
      ({ st with errorReason := some msg }, some ResultCode.ERROR)

/-- `AirSimAction.activate` (src/src/actions.ts lines 39-47): sets the
leaf's status to RUNNING and returns it; the debug log has no model state. -/
def AirSimAction.activate (st : MissionState) :
    MissionState × Option ResultCode × ResultCode :=
  (st, some ResultCode.RUNNING, ResultCode.RUNNING)

/-- `TakeoffAction.activate` (src/src/actions.ts lines 124-127): records the
takeoff target height on the blackboard (`state.hoverHt = this.targetHt`)
and then runs the base activation. -/
def TakeoffAction.activate (targetHt : ℚ) (st : MissionState) :
    MissionState × Option ResultCode × ResultCode :=
  AirSimAction.activate { st with hoverHt := targetHt }

/-- Mutable per-object state of `ReturnHomeAction`: its `targetPos` field,
initialized to `new Vector3(0, 0, HOVER_HT)` (src/src/actions.ts line 174). -/
structure ReturnHomeState where
  targetPos : Vector3
deriving DecidableEq, Repr

def ReturnHomeAction.init : ReturnHomeState :=
  { targetPos := { x := 0, y := 0, z := HOVER_HT } }

/-- `ReturnHomeAction.activate` (src/src/actions.ts lines 177-180): sets
`this.targetPos.z = state.hoverHt` and then runs the base activation (which
issues `moveToPosition(this.targetPos, ...)` against the updated target). -/
def ReturnHomeAction.activate (a : ReturnHomeState) (st : MissionState) :
    ReturnHomeState × MissionState × Option ResultCode × ResultCode :=
  let a' : ReturnHomeState :=
    { targetPos := { a.targetPos with z := st.hoverHt } }
  (a', AirSimAction.activate st)

/-- The promise continuation installed by `MoveOnPathAction.activate`
(src/src/actions.ts lines 231-236): resolve means SUCCESS immediately;
reject records the message and sets ERROR. -/
def MoveOnPathAction.onOutcome (st : MissionState) (o : SimpleOutcome) :
    MissionState × ResultCode :=
  match o with
  | SimpleOutcome.resolved => (st, ResultCode.SUCCESS)
  | SimpleOutcome.rejected msg =>
      ({ st with errorReason := some msg }, ResultCode.ERROR)

/-- The promise continuation installed by `RotateToYawAction.activate`
(src/src/actions.ts lines 254-259): same shape as `MoveOnPathAction`. -/
def RotateToYawAction.onOutcome (st : MissionState) (o : SimpleOutcome) :
    MissionState × ResultCode :=
  match o with
  | SimpleOutcome.resolved => (st, ResultCode.SUCCESS)
  | SimpleOutcome.rejected msg =>
      ({ st with errorReason := some msg }, ResultCode.ERROR)

/-- The promise continuation installed by `MoveByVelocityAction.activate`
(src/src/actions.ts lines 192-207; `StopMotorsAction` is this action with
zero velocity): resolve means SUCCESS; reject records the message and sets
ERROR. -/
def MoveByVelocityAction.onOutcome (st : MissionState) (o : SimpleOutcome) :
    MissionState × ResultCode :=
  match o with
  | SimpleOutcome.resolved => (st, ResultCode.SUCCESS)
  | SimpleOutcome.rejected msg =>
      ({ st with errorReason := some msg }, ResultCode.ERROR)

/-- Events sent into the behavior tree.  Modelled from the spec: the event
vocabulary is `tic` (each timer firing) and `abort` (from
`MissionControl.abort`); the repository's `src/events.ts` declaring the
`MissionEvent` union is not in the snapshot. -/
inductive BTEvent where
  | tic
  | abort
deriving DecidableEq, Repr

/-- Notifications emitted through the controller's `EventEmitter`. -/
inductive Notify where
  | launch
  | abort
  | complete
  | started
  | stopped
deriving DecidableEq, Repr

/-- Observable state of `MissionControl` (src/src/index.ts lines 119-210):
whether the `setInterval` timer is in flight (`_timer !== undefined`) and
the recorded `_status`. -/
structure MissionControlState where
  timerActive : Bool
  status : Option ResultCode
deriving DecidableEq, Repr

/-- A freshly constructed controller: no timer, no status. -/
def MissionControl.initial : MissionControlState :=
  { timerActive := false, status := none }

/-- `isActive()` (src/src/index.ts lines 181-183): `!!this._timer`. -/
def MissionControl.isActive (c : MissionControlState) : Bool :=
  c.timerActive

/-- `isComplete()` (src/src/index.ts lines 185-187):
`(this.status ?? rc.RUNNING) !== rc.RUNNING`. -/
def MissionControl.isComplete (c : MissionControlState) : Bool :=
  (c.status.getD ResultCode.RUNNING) != ResultCode.RUNNING

/-- `launch()` (src/src/index.ts lines 144-159).  Throws when
`this.isActive() || (this.status && this.status !== rc.RUNNING)`;
otherwise records RUNNING, emits the `launch` notification and starts the
recurring timer.  The thrown error is returned through `Except`. -/
def MissionControl.launch (c : MissionControlState) :
    Except String (MissionControlState × List Notify) :=
  if MissionControl.isActive c ||
      (c.status.isSome && c.status != some ResultCode.RUNNING) then
    Except.error ("Mission already running")
  else
    Except.ok ({ timerActive := true, status := some ResultCode.RUNNING },
      [Notify.launch])

/-- `stopTic()` (src/src/index.ts lines 193-197): clears the interval and
emits the `complete` notification. -/
def MissionControl.stopTic (c : MissionControlState) :
    MissionControlState × List Notify :=
  ({ c with timerActive := false }, [Notify.complete])

/-- One firing of the `setInterval` callback installed by `launch`
(src/src/index.ts lines 152-158), parametrized by the root tree's reply to
the `tic` event (the controller only stores `mission.handleEvent`'s
returned code).  A cleared timer never fires again: a firing on an
inactive controller is the identity. -/
def MissionControl.fire (treeResp : ResultCode) (c : MissionControlState) :
    MissionControlState × List Notify :=
  if c.timerActive then
    if !(MissionControl.isComplete c) then
      ({ c with status := some treeResp }, [])
    else
      MissionControl.stopTic c
  else
    (c, [])

/-- A run of the timer: successive firings, each consuming the tree's next
reply; the emitted notifications are concatenated in order. -/
def MissionControl.run (c : MissionControlState) :
    List ResultCode → MissionControlState × List Notify
  | [] => (c, [])
  | r :: rs =>
      let p := MissionControl.fire r c
      let q := MissionControl.run p.1 rs
      (q.1, p.2 ++ q.2)

/-- `abort()` (src/src/index.ts lines 166-175), parametrized by the tree's
reply to the `abort` event.  Returns the new controller state, the emitted
notifications and the console-log lines (logging is not an emission). -/
def MissionControl.abort (treeResp : ResultCode) (c : MissionControlState) :
    MissionControlState × List Notify × List String :=
  if MissionControl.isActive c then
    ({ c with status := some treeResp }, [Notify.abort], [])
  else if c.status.isNone then
    (c, [], [("Mission has not been started")])
  else if MissionControl.isComplete c then
    (c, [], [("Mission already completed.")])
  else
    (c, [], [])

/-- Number of `complete` notifications in an emission trace. -/
def completeCount : List Notify → Nat
  | [] => 0
  | Notify.complete :: es => completeCount es + 1
  | _ :: es => completeCount es

/-- State of a `FlightPlanSequence` (src/src/index.ts lines 220-253) over
an abstract inner-sequence state `σ` (the child list and each child's
runtime state).  `aborted` is the sequence's own sticky flag; `latch` is
the terminal result pinned by the latched composite.  Modelled from the
spec: the `blueshell` `LatchedSequence` base is not in the repository;
per spec §4.4 it latches a terminal non-SUCCESS result and thereafter
returns it without re-entering any child. -/
structure FlightPlanSeq (σ : Type) where
  aborted : Bool
  latch : Option ResultCode
  inner : σ
deriving Repr

/-- Modelled from the spec (§4.4): the latched composite pins a terminal
non-SUCCESS result. -/
def latchResult (latch : Option ResultCode) (res : ResultCode) :
    Option ResultCode :=
  if res = ResultCode.FAILURE ∨ res = ResultCode.ERROR then some res
  else latch

/-- `FlightPlanSequence._afterEvent` (src/src/index.ts lines 246-248):
forces the result to FAILURE when aborted, then hands it to the base
hook, which (modelled from the spec, §4.4/§4.6) latches it. -/
def FlightPlanSeq.afterEvent {σ : Type} (s : FlightPlanSeq σ)
    (res : ResultCode) : FlightPlanSeq σ × ResultCode :=
  let res' := if s.aborted then ResultCode.FAILURE else res
  ({ s with latch := latchResult s.latch res' }, res')

/-- Modelled from the spec (§4.2/§4.4): the latched sequence's normal
event handling — return the latched result without touching any child,
else evaluate the children, abstracted as the step function `step`
(the claim quantifies over whatever the in-flight children would report). -/
def FlightPlanSeq.onEvent {σ : Type}
    (step : σ → MissionState → BTEvent → σ × MissionState × ResultCode)
    (s : FlightPlanSeq σ) (st : MissionState) (ev : BTEvent) :
    FlightPlanSeq σ × MissionState × ResultCode :=
  match s.latch with
  | some r => (s, st, r)
  | none =>
      let p := step s.inner st ev
      ({ s with inner := p.1 }, p.2.1, p.2.2)

/-- `FlightPlanSequence.handleEvent` (src/src/index.ts lines 228-234):
sets the sticky `aborted` flag on an `abort` event, then runs the base
`handleEvent`.  Modelled from the spec (§4.1, §4.6): the base flow runs
the `precondition` hook — here `!this.isAborted()` (lines 242-244) —
refusing the event with result FAILURE when it fails, otherwise the
normal handling; either way the result passes through `_afterEvent`. -/
def FlightPlanSeq.handleEvent {σ : Type}
    (step : σ → MissionState → BTEvent → σ × MissionState × ResultCode)
    (s : FlightPlanSeq σ) (st : MissionState) (ev : BTEvent) :
    FlightPlanSeq σ × MissionState × ResultCode :=
  let s1 := if ev = BTEvent.abort then { s with aborted := true } else s
  if s1.aborted then
    let p := FlightPlanSeq.afterEvent s1 ResultCode.FAILURE
    (p.1, st, p.2)
  else
    let p := FlightPlanSeq.onEvent step s1 st ev
    let q := FlightPlanSeq.afterEvent p.1 p.2.2
    (q.1, p.2.1, q.2)

namespace StartStop

/-- Observable state of the start/stop `MissionControl` variant
(src/unnamed/part_000 lines 22-101): timer flag and recorded `_status`. -/
structure ControlState where
  timerActive : Bool
  status : Option ResultCode
deriving DecidableEq, Repr

/-- A freshly constructed controller of the variant. -/
def initial : ControlState :=
  { timerActive := false, status := none }

/-- `isRunning()` (part_000 lines 80-82): `!!this._timer`. -/
def isRunning (c : ControlState) : Bool :=
  c.timerActive

/-- `shouldContinueMission()` (part_000 lines 88-92):
`!this.status || (this.status === rc.RUNNING && !this.missionState.errorReason)`. -/
def shouldContinueMission (c : ControlState) (st : MissionState) : Bool :=
  c.status.isNone ||
    (c.status == some ResultCode.RUNNING && st.errorReason.isNone)

/-- `stop()` (part_000 lines 69-78).  Returns the new controller state,
the value the method returns (`this.status`, read after the branches),
the emitted notifications and the console-log lines. -/
def stop (c : ControlState) :
    ControlState × Option ResultCode × List Notify × List String :=
  if c.status.isNone then
    (c, c.status, [], [("Mission has not been started")])
  else if isRunning c then
    ({ c with timerActive := false }, c.status, [Notify.stopped], [])
  else
    (c, c.status, [], [])

/-- `start()` (part_000 lines 47-62): same guard as `launch`, records
RUNNING, emits `started`, starts the timer. -/
def start (c : ControlState) :
    Except String (ControlState × List Notify) :=
  if isRunning c || (c.status.isSome && c.status != some ResultCode.RUNNING)
      then
    Except.error ("Mission already running")
  else
    Except.ok ({ timerActive := true, status := some ResultCode.RUNNING },
      [Notify.started])

/-- One firing of the interval callback installed by `start`
(part_000 lines 55-61), parametrized by the tree's reply to `tic`.
The final component records whether a `tic` event was sent to the tree
this firing.  A cleared timer never fires: identity when inactive. -/
def fire (treeResp : ResultCode) (c : ControlState) (st : MissionState) :
    ControlState × List Notify × Bool :=
  if c.timerActive then
    if shouldContinueMission c st then
      ({ c with status := some treeResp }, [], true)
    else
      let p := stop c
      (p.1, p.2.2.1, false)
  else
    (c, [], false)

end StartStop

/-! ## Supporting lemmas -/

/-- The executable squared-distance test agrees with the source's
comparison of the (real) Euclidean distance, for a non-negative margin. -/
theorem distLe_iff_sqrt (a b : Vector3) (m : ℚ) (hm : (0 : ℚ) ≤ m) :
    Vector3.distLe a b m = true ↔
      Real.sqrt ((Vector3.dSq a b : ℚ) : ℝ) ≤ (m : ℝ) := by
  have hm' : (0 : ℝ) ≤ (m : ℝ) := by exact_mod_cast hm
  rw [Vector3.distLe, decide_eq_true_iff, Real.sqrt_le_left hm']
  constructor
  · intro h
    exact_mod_cast h
  · intro h
    exact_mod_cast h

/-! ## Claims about the action leaves (src/src/actions.ts) -/

/-- C2: for the motion leaves with a secondary pose check, once the move
command and the follow-up pose read have resolved, the status is set to
SUCCESS iff the achieved value is within the fixed tolerance of the target
(position: Euclidean distance to `targetPos` at most 5 units; altitude:
`|pose.z - targetHt|` at most the per-action margin), FAILURE when the
command resolved without error but the value is out of tolerance; the
default altitude margin is 1 and `LandAction` uses target 0.5 with margin
0.01. -/
theorem motionLeaf_tolerance_success_failure
    (a : MoveToZParams) (p : MoveToPositionParams) (st : MissionState)
    (status : Option ResultCode) (pose : Pose) :
    ((MoveToZAction.onOutcome a st status
        (CmdOutcome.cmdResolvedPoseResolved pose)).2
      = some ResultCode.SUCCESS ↔
      |pose.position.z - a.targetHt| ≤ a.targetMargin) ∧
    ((MoveToZAction.onOutcome a st status
        (CmdOutcome.cmdResolvedPoseResolved pose)).2
      = some ResultCode.FAILURE ↔
      ¬ |pose.position.z - a.targetHt| ≤ a.targetMargin) ∧
    ((MoveToPositionAction.onOutcome p st status
        (CmdOutcome.cmdResolvedPoseResolved pose)).2
      = some ResultCode.SUCCESS ↔
      Real.sqrt ((Vector3.dSq pose.position p.targetPos : ℚ) : ℝ) ≤ 5) ∧
    ((MoveToPositionAction.onOutcome p st status
        (CmdOutcome.cmdResolvedPoseResolved pose)).2
      = some ResultCode.FAILURE ↔
      ¬ Real.sqrt ((Vector3.dSq pose.position p.targetPos : ℚ) : ℝ) ≤ 5) ∧
    (MoveToZAction.mkDefault a.targetHt).targetMargin = 1 ∧
    LandAction.params.targetHt = 1 / 2 ∧
    LandAction.params.targetMargin = 1 / 100 := by
  have hd := distLe_iff_sqrt pose.position p.targetPos POS_MARGIN
    (by norm_num [POS_MARGIN])
  have h5 : ((POS_MARGIN : ℚ) : ℝ) = 5 := by norm_num [POS_MARGIN]
  rw [h5] at hd
  refine ⟨?_, ?_, ?_, ?_, rfl, rfl, rfl⟩
  · by_cases h : |pose.position.z - a.targetHt| ≤ a.targetMargin <;>
      simp [MoveToZAction.onOutcome, h]
  · by_cases h : |pose.position.z - a.targetHt| ≤ a.targetMargin <;>
      simp [MoveToZAction.onOutcome, h]
  · rw [← hd]
    by_cases h : Vector3.distLe pose.position p.targetPos POS_MARGIN = true <;>
      simp [MoveToPositionAction.onOutcome, h]
  · rw [← hd]
    by_cases h : Vector3.distLe pose.position p.targetPos POS_MARGIN = true <;>
      simp [MoveToPositionAction.onOutcome, h]

/-- C2 witness: with target -2 and margin 1, a pose at altitude -5/2 is
within tolerance and the leaf reports SUCCESS. -/
theorem motionLeaf_tolerance_success_failure_witness :
    (MoveToZAction.onOutcome { targetHt := -2, targetMargin := 1 }
        MissionState.init (some ResultCode.RUNNING)
        (CmdOutcome.cmdResolvedPoseResolved
          { position := { x := 0, y := 0, z := -5/2 } })).2
      = some ResultCode.SUCCESS :=
  (motionLeaf_tolerance_success_failure
    { targetHt := -2, targetMargin := 1 }
    { targetPos := { x := 0, y := 0, z := 0 }, velocity := 5 }
    MissionState.init (some ResultCode.RUNNING)
    { position := { x := 0, y := 0, z := -5/2 } }).1.mpr
    (by rw [abs_le]; constructor <;> norm_num)

/-- C4 (code behaviour at the failing input): a rejection of the external
command is caught — the message is recorded on `errorReason` and the
status set to ERROR — but a rejection of the follow-up `getPose()` read is
not: the inner promise is not returned into the chain, so the `.catch`
never sees it and neither the blackboard nor the leaf's status is
written (the leaf stays RUNNING forever instead of reporting ERROR). -/
theorem moveLeaf_rejection_behaviour
    (a : MoveToZParams) (p : MoveToPositionParams) (st : MissionState)
    (status : Option ResultCode) (msg : String) :
    MoveToZAction.onOutcome a st status (CmdOutcome.cmdRejected msg)
      = ({ st with errorReason := some msg }, some ResultCode.ERROR) ∧
    MoveToPositionAction.onOutcome p st status (CmdOutcome.cmdRejected msg)
      = ({ st with errorReason := some msg }, some ResultCode.ERROR) ∧
    MoveToZAction.onOutcome a st status
        (CmdOutcome.cmdResolvedPoseRejected msg) = (st, status) ∧
    MoveToPositionAction.onOutcome p st status
        (CmdOutcome.cmdResolvedPoseRejected msg) = (st, status) :=
  ⟨rfl, rfl, rfl, rfl⟩

/-- C4 witness: concrete failing input — the command resolved, the pose
read rejected: the status stays RUNNING and no error is recorded. -/
theorem moveLeaf_rejection_behaviour_witness :
    MoveToZAction.onOutcome { targetHt := -2, targetMargin := 1 }
        MissionState.init (some ResultCode.RUNNING)
        (CmdOutcome.cmdResolvedPoseRejected ("pose read failed"))
      = (MissionState.init, some ResultCode.RUNNING) :=
  (moveLeaf_rejection_behaviour { targetHt := -2, targetMargin := 1 }
    { targetPos := { x := 0, y := 0, z := 0 }, velocity := 5 }
    MissionState.init (some ResultCode.RUNNING)
    ("pose read failed")).2.2.1

/-- C8: the path and rotation leaves set SUCCESS as soon as the underlying
command resolves (the model has no pose-read outcome for them: the source
installs no secondary pose check), and a rejection records the message and
sets ERROR. -/
theorem pathRotate_success_on_resolve (st : MissionState) (msg : String) :
    MoveOnPathAction.onOutcome st SimpleOutcome.resolved
      = (st, ResultCode.SUCCESS) ∧
    RotateToYawAction.onOutcome st SimpleOutcome.resolved
      = (st, ResultCode.SUCCESS) ∧
    MoveOnPathAction.onOutcome st (SimpleOutcome.rejected msg)
      = ({ st with errorReason := some msg }, ResultCode.ERROR) ∧
    RotateToYawAction.onOutcome st (SimpleOutcome.rejected msg)
      = ({ st with errorReason := some msg }, ResultCode.ERROR) :=
  ⟨rfl, rfl, rfl, rfl⟩

/-- C8 witness: concrete evaluation of the path leaf on a resolved
command. -/
theorem pathRotate_success_on_resolve_witness :
    MoveOnPathAction.onOutcome MissionState.init SimpleOutcome.resolved
      = (MissionState.init, ResultCode.SUCCESS) :=
  (pathRotate_success_on_resolve MissionState.init ("")).1

/-- C6 counterexample: the takeoff leaf does not record the achieved hover
altitude.  Takeoff to target -2 (margin 1) whose command resolves with a
measured pose at altitude -14/5 reports SUCCESS, yet the blackboard's
`hoverHt` holds the commanded target -2 — not the achieved -14/5: the
write `state.hoverHt = this.targetHt` happens at activation, before the
move, and nothing ever stores the measured altitude. -/
theorem takeoff_hover_not_achieved_cex :
    (MoveToZAction.onOutcome { targetHt := -2, targetMargin := 1 }
        (TakeoffAction.activate (-2) MissionState.init).1
        (some ResultCode.RUNNING)
        (CmdOutcome.cmdResolvedPoseResolved
          { position := { x := 0, y := 0, z := -14/5 } })).2
      = some ResultCode.SUCCESS ∧
    (MoveToZAction.onOutcome { targetHt := -2, targetMargin := 1 }
        (TakeoffAction.activate (-2) MissionState.init).1
        (some ResultCode.RUNNING)
        (CmdOutcome.cmdResolvedPoseResolved
          { position := { x := 0, y := 0, z := -14/5 } })).1.hoverHt
      = -2 ∧
    (MoveToZAction.onOutcome { targetHt := -2, targetMargin := 1 }
        (TakeoffAction.activate (-2) MissionState.init).1
        (some ResultCode.RUNNING)
        (CmdOutcome.cmdResolvedPoseResolved
          { position := { x := 0, y := 0, z := -14/5 } })).1.hoverHt
      ≠ -14/5 := by
  have h : |(-14/5 : ℚ) + 2| ≤ 1 := by
    rw [abs_le]
    constructor <;> norm_num
  refine ⟨?_, rfl, ?_⟩
  · simp [MoveToZAction.onOutcome, TakeoffAction.activate,
      AirSimAction.activate, h]
  · show ((-2 : ℚ)) ≠ -14/5
    norm_num

/-- C6 (amended): takeoff records its commanded target hover height on the
blackboard
(`hoverHt`), return-home overrides the altitude of its origin target with
the blackboard's hover height immediately before activation — composed,
return-home after a takeoff with target `t` targets `(0, 0, t)` — and no
leaf continuation modifies `hoverHt`, so this holds for the whole run. -/
theorem takeoff_hover_returnHome_target
    (t : ℚ) (st : MissionState) (a : ReturnHomeState)
    (zp : MoveToZParams) (pp : MoveToPositionParams)
    (status : Option ResultCode) (o : CmdOutcome) (so : SimpleOutcome) :
    (TakeoffAction.activate t st).1.hoverHt = t ∧
    (ReturnHomeAction.activate a st).1.targetPos
      = { a.targetPos with z := st.hoverHt } ∧
    (ReturnHomeAction.activate ReturnHomeAction.init
        (TakeoffAction.activate t st).1).1.targetPos
      = { x := 0, y := 0, z := t } ∧
    (MoveToZAction.onOutcome zp st status o).1.hoverHt = st.hoverHt ∧
    (MoveToPositionAction.onOutcome pp st status o).1.hoverHt = st.hoverHt ∧
    (MoveOnPathAction.onOutcome st so).1.hoverHt = st.hoverHt ∧
    (RotateToYawAction.onOutcome st so).1.hoverHt = st.hoverHt ∧
    (MoveByVelocityAction.onOutcome st so).1.hoverHt = st.hoverHt := by
  refine ⟨rfl, rfl, rfl, ?_, ?_, ?_, ?_, ?_⟩
  · cases o <;> rfl
  · cases o <;> rfl
  · cases so <;> rfl
  · cases so <;> rfl
  · cases so <;> rfl

/-- C6 witness: a takeoff to -2 followed by return-home activation targets
the origin at altitude -2. -/
theorem takeoff_hover_returnHome_target_witness :
    (ReturnHomeAction.activate ReturnHomeAction.init
        (TakeoffAction.activate (-2) MissionState.init).1).1.targetPos
      = { x := 0, y := 0, z := -2 } :=
  (takeoff_hover_returnHome_target (-2) MissionState.init
    ReturnHomeAction.init { targetHt := 0, targetMargin := 1 }
    { targetPos := { x := 0, y := 0, z := 0 }, velocity := 5 }
    none (CmdOutcome.cmdRejected ("")) SimpleOutcome.resolved).2.2.1

/-! ## Claims about MissionControl (src/src/index.ts) -/

theorem fire_inactive (r : ResultCode) (c : MissionControlState)
    (h : c.timerActive = false) : MissionControl.fire r c = (c, []) := by
  simp [MissionControl.fire, h]

theorem run_inactive (c : MissionControlState) (h : c.timerActive = false) :
    ∀ rs, MissionControl.run c rs = (c, []) := by
  intro rs
  induction rs with
  | nil => rfl
  | cons r rs ih => simp [MissionControl.run, fire_inactive r c h, ih]

theorem run_cons (r : ResultCode) (c : MissionControlState)
    (rs : List ResultCode) :
    MissionControl.run c (r :: rs)
      = ((MissionControl.run (MissionControl.fire r c).1 rs).1,
         (MissionControl.fire r c).2 ++
           (MissionControl.run (MissionControl.fire r c).1 rs).2) := rfl

theorem run_append (c : MissionControlState) (l1 l2 : List ResultCode) :
    MissionControl.run c (l1 ++ l2)
      = ((MissionControl.run (MissionControl.run c l1).1 l2).1,
         (MissionControl.run c l1).2 ++
           (MissionControl.run (MissionControl.run c l1).1 l2).2) := by
  induction l1 generalizing c with
  | nil => simp [MissionControl.run]
  | cons r rs ih => simp [MissionControl.run, ih]

theorem run_running_pre (pre : List ResultCode)
    (h : ∀ x ∈ pre, x = ResultCode.RUNNING) :
    MissionControl.run
        { timerActive := true, status := some ResultCode.RUNNING } pre
      = ({ timerActive := true, status := some ResultCode.RUNNING }, []) := by
  induction pre with
  | nil => rfl
  | cons x xs ih =>
      have hx : x = ResultCode.RUNNING := h x (by simp)
      subst hx
      have ih' := ih (fun y hy => h y (by simp [hy]))
      have hfire : MissionControl.fire ResultCode.RUNNING
          { timerActive := true, status := some ResultCode.RUNNING }
          = ({ timerActive := true, status := some ResultCode.RUNNING },
             []) := rfl
      rw [run_cons, hfire, ih']
      rfl

theorem completeCount_run_le_one (rs : List ResultCode) :
    ∀ c, completeCount (MissionControl.run c rs).2 ≤ 1 := by
  induction rs with
  | nil =>
      intro c
      simp [MissionControl.run, completeCount]
  | cons r rs ih =>
      intro c
      by_cases h : c.timerActive = true
      · by_cases h2 : MissionControl.isComplete c = true
        · have hrest := run_inactive { c with timerActive := false } rfl rs
          simp [MissionControl.run, MissionControl.fire, h, h2,
            MissionControl.stopTic, hrest, completeCount]
        · simpa [MissionControl.run, MissionControl.fire, h, h2,
            completeCount] using ih { c with status := some r }
      · have h' : c.timerActive = false := by
          simpa using h
        simpa [MissionControl.run, fire_inactive r c h',
          completeCount] using ih c

/-- C3: `launch()` raises the "Mission already running" error iff the
controller is already active (timer in flight) or a recorded status other
than RUNNING exists; otherwise it records RUNNING, emits the launch
notification and starts the timer; in particular launching twice raises on
the second call. -/
theorem missionControl_launch_spec (c : MissionControlState) :
    ((∃ e, MissionControl.launch c = Except.error e) ↔
      (c.timerActive = true ∨
        (c.status.isSome = true ∧ c.status ≠ some ResultCode.RUNNING))) ∧
    (∀ e, MissionControl.launch c = Except.error e →
      e = "Mission already running") ∧
    (c.timerActive = false →
      (c.status = none ∨ c.status = some ResultCode.RUNNING) →
      MissionControl.launch c =
        Except.ok ({ timerActive := true, status := some ResultCode.RUNNING },
          [Notify.launch])) ∧
    (∀ c' es, MissionControl.launch c = Except.ok (c', es) →
      MissionControl.launch c' =
        Except.error ("Mission already running")) := by
  obtain ⟨t, s⟩ := c
  cases t <;> rcases s with _ | r <;> try cases r
  all_goals simp [MissionControl.launch, MissionControl.isActive]

/-- C3 witness: launching a fresh controller succeeds and records RUNNING;
launching it again raises "Mission already running". -/
theorem missionControl_launch_spec_witness :
    MissionControl.launch MissionControl.initial =
      Except.ok ({ timerActive := true, status := some ResultCode.RUNNING },
        [Notify.launch]) ∧
    MissionControl.launch
        { timerActive := true, status := some ResultCode.RUNNING }
      = Except.error ("Mission already running") := by
  have h1 := (missionControl_launch_spec MissionControl.initial).2.2.1
    rfl (Or.inl rfl)
  exact ⟨h1, (missionControl_launch_spec MissionControl.initial).2.2.2
    { timerActive := true, status := some ResultCode.RUNNING }
    [Notify.launch] h1⟩

/-- C5: on each timer firing with a non-terminal recorded status, a tic is
sent into the tree and the returned code stored; on the first firing that
observes a terminal status, the timer is cleared and the complete
notification emitted; every run emits at most one complete notification,
and a run that records a terminal tree reply and fires at least once more
emits it exactly once. -/
theorem missionControl_tick_complete_once
    (r : ResultCode) (c : MissionControlState) (rs : List ResultCode) :
    (c.timerActive = true → MissionControl.isComplete c = false →
      MissionControl.fire r c = ({ c with status := some r }, [])) ∧
    (c.timerActive = true → MissionControl.isComplete c = true →
      MissionControl.fire r c
        = ({ c with timerActive := false }, [Notify.complete])) ∧
    completeCount (MissionControl.run c rs).2 ≤ 1 ∧
    (∀ (pre post : List ResultCode) (t : ResultCode),
      (∀ x ∈ pre, x = ResultCode.RUNNING) →
      t.isTerminal = true → post ≠ [] →
      completeCount (MissionControl.run
        { timerActive := true, status := some ResultCode.RUNNING }
        (pre ++ t :: post)).2 = 1) := by
  refine ⟨?_, ?_, completeCount_run_le_one rs c, ?_⟩
  · intro h1 h2
    simp [MissionControl.fire, h1, h2]
  · intro h1 h2
    simp [MissionControl.fire, h1, h2, MissionControl.stopTic]
  · intro pre post t hpre ht hpost
    have hterm : (t != ResultCode.RUNNING) = true := ht
    obtain ⟨q, post', rfl⟩ := List.exists_cons_of_ne_nil hpost
    rw [run_append, run_running_pre pre hpre]
    have hfire : MissionControl.fire t
        { timerActive := true, status := some ResultCode.RUNNING }
        = ({ timerActive := true, status := some t }, []) := rfl
    have hcomp : MissionControl.isComplete
        { timerActive := true, status := some t } = true := hterm
    have hfire2 : MissionControl.fire q
        { timerActive := true, status := some t }
        = ({ timerActive := false, status := some t },
           [Notify.complete]) := by
      simp [MissionControl.fire, MissionControl.stopTic, hcomp]
    have hrest := run_inactive
      { timerActive := false, status := some t } rfl post'
    rw [run_cons, hfire, run_cons, hfire2, hrest]
    simp [completeCount]

/-- C5 witness: launched controller, tree replies RUNNING then SUCCESS,
then one more firing: exactly one complete notification is emitted. -/
theorem missionControl_tick_complete_once_witness :
    completeCount (MissionControl.run
      { timerActive := true, status := some ResultCode.RUNNING }
      ([ResultCode.RUNNING] ++
        ResultCode.SUCCESS :: [ResultCode.RUNNING])).2 = 1 :=
  (missionControl_tick_complete_once ResultCode.RUNNING
    { timerActive := true, status := some ResultCode.RUNNING }
    []).2.2.2 [ResultCode.RUNNING] [ResultCode.RUNNING] ResultCode.SUCCESS
    (by intro x hx; simpa using hx) rfl (by simp)

/-- C7: `abort()` on an active controller stores the tree's reply to the
abort event as the status and emits the abort notification; called before
launch it only logs and changes nothing; called after completion it only
logs and changes nothing. -/
theorem missionControl_abort_spec (r : ResultCode) (c : MissionControlState) :
    (c.timerActive = true →
      MissionControl.abort r c
        = ({ c with status := some r }, [Notify.abort], [])) ∧
    (c.timerActive = false → c.status = none →
      MissionControl.abort r c
        = (c, [], [("Mission has not been started")])) ∧
    (c.timerActive = false → MissionControl.isComplete c = true →
      MissionControl.abort r c
        = (c, [], [("Mission already completed.")])) := by
  refine ⟨?_, ?_, ?_⟩
  · intro h
    simp [MissionControl.abort, MissionControl.isActive, h]
  · intro h1 h2
    simp [MissionControl.abort, MissionControl.isActive, h1, h2]
  · intro h1 h2
    have hs : c.status.isNone = false := by
      rcases hstat : c.status with _ | v
      · exact absurd h2 (by simp [MissionControl.isComplete, hstat])
      · simp [hstat]
    simp [MissionControl.abort, MissionControl.isActive, h1, hs, h2]

/-- C7 witness: abort on an active controller records the reply and emits
abort; abort before launch and after completion only log. -/
theorem missionControl_abort_spec_witness :
    MissionControl.abort ResultCode.FAILURE
        { timerActive := true, status := some ResultCode.RUNNING }
      = ({ timerActive := true, status := some ResultCode.FAILURE },
         [Notify.abort], []) ∧
    MissionControl.abort ResultCode.FAILURE MissionControl.initial
      = (MissionControl.initial, [], [("Mission has not been started")]) ∧
    MissionControl.abort ResultCode.FAILURE
        { timerActive := false, status := some ResultCode.SUCCESS }
      = ({ timerActive := false, status := some ResultCode.SUCCESS },
         [], [("Mission already completed.")]) :=
  ⟨(missionControl_abort_spec ResultCode.FAILURE
      { timerActive := true, status := some ResultCode.RUNNING }).1 rfl,
   (missionControl_abort_spec ResultCode.FAILURE MissionControl.initial).2.1
      rfl rfl,
   (missionControl_abort_spec ResultCode.FAILURE
      { timerActive := false, status := some ResultCode.SUCCESS }).2.2
      rfl rfl⟩

/-- C1: the aborted flag of the flight-plan sequence is set by the abort
event and is sticky: on the abort event itself and on every subsequent
call — any event, any blackboard, whatever the in-flight children would
have reported — the precondition refuses processing and the result is
forced to FAILURE. -/
theorem flightPlanSeq_abort_sticky_failure (σ : Type)
    (step : σ → MissionState → BTEvent → σ × MissionState × ResultCode)
    (s : FlightPlanSeq σ) (st : MissionState) :
    ((FlightPlanSeq.handleEvent step s st BTEvent.abort).1.aborted = true ∧
     (FlightPlanSeq.handleEvent step s st BTEvent.abort).2.2
        = ResultCode.FAILURE) ∧
    (∀ (s' : FlightPlanSeq σ) (st' : MissionState) (ev : BTEvent),
      s'.aborted = true →
        (FlightPlanSeq.handleEvent step s' st' ev).2.2
            = ResultCode.FAILURE ∧
        (FlightPlanSeq.handleEvent step s' st' ev).1.aborted = true) := by
  constructor
  · simp [FlightPlanSeq.handleEvent, FlightPlanSeq.afterEvent]
  · intro s' st' ev h
    cases ev <;>
      simp [FlightPlanSeq.handleEvent, FlightPlanSeq.afterEvent, h]

/-- C1 witness: an already-aborted sequence, over children that would
report SUCCESS, still returns FAILURE on a tic and stays aborted. -/
theorem flightPlanSeq_abort_sticky_failure_witness :
    (FlightPlanSeq.handleEvent
        (fun u st _ => (u, st, ResultCode.SUCCESS))
        { aborted := true, latch := none, inner := () }
        MissionState.init BTEvent.tic).2.2 = ResultCode.FAILURE ∧
    (FlightPlanSeq.handleEvent
        (fun u st _ => (u, st, ResultCode.SUCCESS))
        { aborted := true, latch := none, inner := () }
        MissionState.init BTEvent.tic).1.aborted = true :=
  (flightPlanSeq_abort_sticky_failure Unit
    (fun u st _ => (u, st, ResultCode.SUCCESS))
    { aborted := true, latch := none, inner := () } MissionState.init).2
    { aborted := true, latch := none, inner := () } MissionState.init
    BTEvent.tic rfl

/-! ## Claims about the start/stop controller variant (src/unnamed/part_000) -/

/-- C9: in the start/stop variant, once the controller has been started
(a status is recorded) and the timer is in flight, a firing sends a tic to
the tree iff the recorded status is RUNNING and no `errorReason` is set on
the blackboard; as soon as `errorReason` is set, the firing instead stops
the timer and emits the stopped notification without ticking the tree,
even though the recorded status is still RUNNING. -/
theorem startStop_fire_gated (r s : ResultCode) (c : StartStop.ControlState)
    (st : MissionState) (h : c.status = some s) (ht : c.timerActive = true) :
    ((StartStop.fire r c st).2.2 = true ↔
      (s = ResultCode.RUNNING ∧ st.errorReason = none)) ∧
    (s = ResultCode.RUNNING → st.errorReason ≠ none →
      StartStop.fire r c st
        = ({ c with timerActive := false }, [Notify.stopped], false)) := by
  cases s <;> rcases he : st.errorReason with _ | msg <;>
    simp [StartStop.fire, StartStop.shouldContinueMission, StartStop.stop,
      StartStop.isRunning, h, ht, he]

/-- C9 witness: started controller still RUNNING, but a leaf has recorded
an error: the firing stops the timer and emits stopped without a tic. -/
theorem startStop_fire_gated_witness :
    StartStop.fire ResultCode.SUCCESS
        { timerActive := true, status := some ResultCode.RUNNING }
        { errorReason := some ("leaf failed"), debug := false, hoverHt := -3 }
      = ({ timerActive := false, status := some ResultCode.RUNNING },
         [Notify.stopped], false) :=
  (startStop_fire_gated ResultCode.SUCCESS ResultCode.RUNNING
    { timerActive := true, status := some ResultCode.RUNNING }
    { errorReason := some ("leaf failed"), debug := false, hoverHt := -3 }
    rfl rfl).2 rfl (by simp)

/-- C10: in the start/stop variant, `stop()` never mutates the recorded
status and returns it unchanged; it emits the stopped notification exactly
when a status is recorded and the timer is active (so it clears the timer
and emits only when a timer is active); called before start it only logs
and emits nothing. -/
theorem startStop_stop_frame (c : StartStop.ControlState) :
    ((StartStop.stop c).1.status = c.status) ∧
    ((StartStop.stop c).2.1 = c.status) ∧
    ((StartStop.stop c).2.2.1 = [Notify.stopped] ↔
      (c.status.isSome = true ∧ c.timerActive = true)) ∧
    ((StartStop.stop c).1.timerActive ≠ c.timerActive →
      c.timerActive = true) ∧
    (c.status = none →
      StartStop.stop c
        = (c, none, [], [("Mission has not been started")])) := by
  obtain ⟨t, stat⟩ := c
  cases t <;> rcases stat with _ | v <;>
    simp [StartStop.stop, StartStop.isRunning]

/-- C10 witness: stop before start only logs; stop on a started, active
controller emits the stopped notification. -/
theorem startStop_stop_frame_witness :
    StartStop.stop StartStop.initial
      = (StartStop.initial, none, [], [("Mission has not been started")]) ∧
    (StartStop.stop
        { timerActive := true, status := some ResultCode.RUNNING }).2.2.1
      = [Notify.stopped] :=
  ⟨(startStop_stop_frame StartStop.initial).2.2.2.2 rfl,
   (startStop_stop_frame
      { timerActive := true, status := some ResultCode.RUNNING }).2.2.1.mpr
      ⟨rfl, rfl⟩⟩

end DroneMission
